import Mathlib

/-!
Verification of `create_presentation_assets.py` (psychohistory repository).

The script is a linear read → transform → write pipeline.  We embed it
shallowly:

* Python `str` values that the code inspects character by character are
  modelled as `List Char` (`Str`); `str.split('\n')`, `str.startswith`,
  `str.strip()` and `str.replace(pat, '')` are translated below.
* Python `float` arithmetic on the statistics counters is modelled over `ℚ`,
  and the `:.1f` rendering as rounding to the nearest multiple of `1/10`.
* The fallible division (`ZeroDivisionError` when `totalPaths` is 0) and the
  fallible JSON loading are modelled with `Option`.
* `main`'s sequence of file writes is modelled as explicit state passing over
  a record of the four output files.
-/

/-- Python `str`, modelled as its list of characters. -/
abbrev Str := List Char

/-- Python `prompt.split('\n')`: split on every newline, keeping empty parts
(`"".split('\n') == [""]`, `"a\n".split('\n') == ["a", ""]`). -/
def splitLines : Str → List Str
  | [] => [[]]
  | c :: rest =>
    match splitLines rest with
    | [] => if c = '\n' then [[], []] else [[c]]
    | l :: ls => if c = '\n' then [] :: l :: ls else (c :: l) :: ls

/-- Python `line.strip()`: drop whitespace from both ends. -/
def strip (s : Str) : Str :=
  ((s.dropWhile Char.isWhitespace).reverse.dropWhile Char.isWhitespace).reverse

/-- Worker for `removeAll`: `skip` counts characters of a matched occurrence
still to be dropped before the scan resumes. -/
def removeAllAux (pat : Str) : Nat → Str → Str
  | _, [] => []
  | Nat.succ k, _ :: rest => removeAllAux pat k rest
  | 0, c :: rest =>
    if pat ≠ [] ∧ pat.isPrefixOf (c :: rest) then
      removeAllAux pat (pat.length - 1) rest
    else
      c :: removeAllAux pat 0 rest

/-- Python `s.replace(pat, '')` for a non-empty pattern: scan left to
right, removing every (non-overlapping) occurrence of `pat`. -/
def removeAll (pat : Str) (s : Str) : Str :=
  removeAllAux pat 0 s

/-- The literal prefix `"Question:"` looked for by `extract_question`. -/
def questionTag : Str := "Question:".data

/-- The literal prefix `"[Depth"` looked for by `extract_path`. -/
def depthTag : Str := "[Depth".data

/-- The loop body of `extract_question`: return on the first line starting
with `"Question:"`, fall through to the placeholder. -/
def extract_question_go : List Str → Str
  | [] => "Unknown question".data
  | line :: rest =>
    if questionTag.isPrefixOf line then strip (removeAll questionTag line)
    else extract_question_go rest

/-- `extract_question(prompt)` from the source: first line starting with
`"Question:"`, with every occurrence of `"Question:"` removed
(Python `line.replace('Question:', '')`) and stripped; placeholder
`"Unknown question"` when no line matches. -/
def extract_question (prompt : Str) : Str :=
  extract_question_go (splitLines prompt)

/-- The loop body of `extract_path`: collect the stripped lines starting with
`"[Depth"`. -/
def extract_path_go : List Str → List Str
  | [] => []
  | line :: rest =>
    if depthTag.isPrefixOf line then strip line :: extract_path_go rest
    else extract_path_go rest

/-- `extract_path(prompt)` from the source: every line starting with
`"[Depth"`, in order, stripped. -/
def extract_path (prompt : Str) : List Str :=
  extract_path_go (splitLines prompt)

example : extract_question ("Question: Will X happen?\nOther line".data)
    = "Will X happen?".data := by decide
example : extract_question ("no question here\nat all".data)
    = "Unknown question".data := by decide
example : extract_path ("Question: q\n[Depth 1] A (p=0.5)\nmid\n[Depth 2] B (p=0.5)  ".data)
    = ["[Depth 1] A (p=0.5)".data, "[Depth 2] B (p=0.5)".data] := by decide
example : extract_question ("Question: A Question: B".data) = "A  B".data := by decide

/-! ## Data model -/

/-- A sample's `metadata` object. -/
structure Metadata where
  predictedOutcome : Str
  actualOutcome : Str
  cumulativeProbability : ℚ
deriving DecidableEq

/-- One training record of `dpo_classifier_training_sample.json`. -/
structure Sample where
  prompt : Str
  chosen : Str
  rejected : Str
  metadata : Metadata
deriving DecidableEq

/-- The `model_said` object of a comparison example. -/
structure ModelSaid where
  prediction : Str
  label : Str
  reasoning : Str
deriving DecidableEq

/-- The `actual_outcome` object of a comparison example. -/
structure ActualOutcomeInfo where
  answer : Str
  label : Str
  reasoning : Str
deriving DecidableEq

/-- One element of the comparison document's `examples` list. -/
structure ComparisonExample where
  example_number : ℕ
  question : Str
  scenario_path : List Str
  cumulative_probability : ℚ
  model_said : ModelSaid
  actual_outcome : ActualOutcomeInfo
  dpo_action : Str
deriving DecidableEq

/-- The comparison document written to `dpo_comparison_examples.json`. -/
structure Comparison where
  title : Str
  subtitle : Str
  examples : List ComparisonExample
deriving DecidableEq

/-- The example object built in the body of the `for i, sample in
enumerate(wrong_predictions[:3], 1)` loop. -/
def mkExample (i : ℕ) (sample : Sample) : ComparisonExample :=
  { example_number := i
    question := extract_question sample.prompt
    scenario_path := extract_path sample.prompt
    cumulative_probability := sample.metadata.cumulativeProbability
    model_said :=
      { prediction := sample.metadata.predictedOutcome
        label := "REJECTED ❌".data
        reasoning := "Model incorrectly predicted this outcome".data }
    actual_outcome :=
      { answer := sample.metadata.actualOutcome
        label := "CHOSEN ✓".data
        reasoning := "Verified historical outcome".data }
    dpo_action :=
      "Decrease P('".data ++ sample.rejected
        ++ "') and Increase P('".data ++ sample.chosen ++ "')".data }

/-- `[s for s in samples if s['metadata']['predictedOutcome'] !=
s['metadata']['actualOutcome']]`. -/
def wrong_predictions (samples : List Sample) : List Sample :=
  samples.filter (fun s => s.metadata.predictedOutcome != s.metadata.actualOutcome)

/-- `[s for s in samples if s['metadata']['predictedOutcome'] ==
s['metadata']['actualOutcome']]` (computed but unused by the source). -/
def right_predictions (samples : List Sample) : List Sample :=
  samples.filter (fun s => s.metadata.predictedOutcome == s.metadata.actualOutcome)

/-- The `enumerate(·, 1)` loop: number the selected samples from `i`. -/
def numberedExamples : ℕ → List Sample → List ComparisonExample
  | _, [] => []
  | i, s :: rest => mkExample i s :: numberedExamples (i + 1) rest

/-- `create_comparison_examples(samples, ...)` from the source: the document
it builds and writes (fixed title and subtitle; examples from the first 3
wrongly-predicted samples). -/
def create_comparison_examples (samples : List Sample) : Comparison :=
  { title := "DPO Training: Learning from Mistakes".data
    subtitle :=
      "Teaching the model to prefer correct predictions over incorrect ones".data
    examples := numberedExamples 1 ((wrong_predictions samples).take 3) }

/-! ## Statistics and the performance table -/

/-- The object of `dpo_classifier_statistics.json`. -/
structure Stats where
  totalDPOPairs : ℕ
  totalPaths : ℕ
  correctPaths : ℕ
  incorrectPaths : ℕ
  llmAccuracy : Str
  byOutcomeYES : ℕ
  byOutcomeNO : ℕ
deriving DecidableEq

/-- Python's `:.1f` rendering of a real value, modelled over `ℚ`: the value
shown is the nearest multiple of `1/10` (`round` on ties). -/
def fmt1f (q : ℚ) : ℚ := (round (q * 10) : ℤ) / 10

/-- The dynamic fields interpolated into the performance-table template (the
surrounding text of `create_performance_table` is static). -/
structure PerformanceTable where
  totalDPOPairs : ℕ
  totalPaths : ℕ
  correctPaths : ℕ
  correctPct : ℚ
  incorrectPaths : ℕ
  incorrectPct : ℚ
  llmAccuracy : Str
  byOutcomeYES : ℕ
  byOutcomeNO : ℕ
deriving DecidableEq

/-- `create_performance_table(stats)` from the source: the interpolated
values of the table it writes.  `float(c)/stats['totalPaths']*100` raises
`ZeroDivisionError` when `totalPaths` is 0, modelled as `none`. -/
def create_performance_table (stats : Stats) : Option PerformanceTable :=
  if stats.totalPaths = 0 then none
  else some
    { totalDPOPairs := stats.totalDPOPairs
      totalPaths := stats.totalPaths
      correctPaths := stats.correctPaths
      correctPct := fmt1f ((stats.correctPaths : ℚ) / (stats.totalPaths : ℚ) * 100)
      incorrectPaths := stats.incorrectPaths
      incorrectPct := fmt1f ((stats.incorrectPaths : ℚ) / (stats.totalPaths : ℚ) * 100)
      llmAccuracy := stats.llmAccuracy
      byOutcomeYES := stats.byOutcomeYES
      byOutcomeNO := stats.byOutcomeNO }

/-! ## The two fully static assets -/

/-- `n` copies of the character `c`, for the drawn borders. -/
def repChar (c : Char) (n : Nat) : String :=
  String.mk (List.replicate n c)

/-- `create_architecture_diagram()` from the source: the diagram text it
writes, a constant taking no input (the repeated border characters are
factored through `repChar`; the string value is the verbatim source text). -/
def create_architecture_diagram : String :=
  "
╔"
    ++ repChar '═' 74
    ++ "╗
║                    DPO TRAINING PIPELINE ARCHITECTURE                    ║
╚"
    ++ repChar '═' 74
    ++ "╝

┌"
    ++ repChar '─' 73
    ++ "┐
│ STEP 1: Data Generation                                                 │
└"
    ++ repChar '─' 73
    ++ "┘

   Seed Event (e.g., \"Will Trump win 2024 election?\")
         │
         ▼
   ┌"
    ++ repChar '─' 17
    ++ "┐
   │ Tree Generation │  ← DeepSeek R1 generates probability tree
   └"
    ++ repChar '─' 17
    ++ "┘
         │
         ▼
   40 scenario paths with cumulative probabilities
         │
         ▼
   ┌"
    ++ repChar '─' 17
    ++ "┐
   │ LLM Classifier  │  ← Classify each path as YES/NO
   └"
    ++ repChar '─' 17
    ++ "┘
         │
         ▼
   Compare predictions to actual outcomes (ground truth)
         │
         ├─── Correct prediction → CHOSEN ✓
         └─── Wrong prediction → REJECTED ❌

┌"
    ++ repChar '─' 73
    ++ "┐
│ STEP 2: DPO Training (Reinforcement Learning)                           │
└"
    ++ repChar '─' 73
    ++ "┘

   For each (prompt, chosen, rejected) pair:

   Loss = -log(σ(β * [log π_θ(chosen|prompt) - log π_ref(chosen|prompt)
                     - log π_θ(rejected|prompt) + log π_ref(rejected|prompt)]))

   Where:
   • π_θ = Policy model (being trained)
   • π_ref = Reference model (frozen)
   • β = Temperature parameter (controls strength)
   • σ = Sigmoid function

   Effect: Model learns to:
   ✓ Increase probability of correct predictions (chosen)
   ✗ Decrease probability of incorrect predictions (rejected)

┌"
    ++ repChar '─' 73
    ++ "┐
│ STEP 3: Expected Improvements                                           │
└"
    ++ repChar '─' 73
    ++ "┘

   BEFORE DPO (Baseline):           AFTER DPO (Expected):
   ┌"
    ++ repChar '─' 20
    ++ "┐           ┌"
    ++ repChar '─' 20
    ++ "┐
   │ Accuracy:    50%   │           │ Accuracy:    85%+  │
   │ Calibration: 0.25  │    ═══>   │ Calibration: 0.10  │
   │ Confidence: Random │           │ Confidence: Sharp  │
   └"
    ++ repChar '─' 20
    ++ "┘           └"
    ++ repChar '─' 20
    ++ "┘

╔"
    ++ repChar '═' 74
    ++ "╗
║ KEY INSIGHT: DPO directly optimizes for human preferences without       ║
║ requiring a separate reward model (unlike RLHF)                         ║
╚"
    ++ repChar '═' 74
    ++ "╝
"

/-- `create_slide_content()` from the source: the markdown it writes, a
constant taking no input. -/
def create_slide_content : String :=
  "# DPO Training Pipeline for Event Forecasting
## Reinforcement Learning from Historical Outcomes

---

## Slide 1: The Problem

**Challenge:** How do we train AI models to make better probabilistic forecasts?

**Current Approach:**
- Supervised Fine-Tuning (SFT): Model learns from examples
- But SFT doesn't teach *preferences* (why one prediction is better)

**Our Solution:**
- Direct Preference Optimization (DPO)
- Train directly on (correct, incorrect) prediction pairs
- Learn to prefer accurate forecasts over inaccurate ones

---

## Slide 2: DPO Training Pipeline

```
Seed Event → Tree Generation → Path Classification → DPO Pairs
     ↓              ↓                  ↓                  ↓
\"Will Trump    Probability      LLM predicts        (Chosen, Rejected)
 win 2024?\"    tree (40 paths)  YES/NO per path     pairs for training
```

**Key Insight:** We use *actual historical outcomes* as ground truth
- Correct predictions → CHOSEN ✓
- Wrong predictions → REJECTED ❌

---

## Slide 3: Real Training Data Example

**Question:** Will Donald Trump win the 2024 US Presidential Election?

**Scenario Path:**
[Depth 1] Status quo continues (p=0.50)
[Depth 2] Status quo continues (p=0.50)
[Depth 3] Unexpected development (p=0.50)
**Cumulative Probability:** 0.125

**Model Prediction:** NO ❌
**Actual Outcome:** YES ✓

**DPO Training Effect:**
- ⬆️ Increase P(YES) for this scenario
- ⬇️ Decrease P(NO) for this scenario

---

## Slide 4: Expected Performance Gains

| Metric | Before DPO | After DPO | Improvement |
|--------|"
    ++ repChar '-' 11
    ++ "|"
    ++ repChar '-' 11
    ++ "|"
    ++ repChar '-' 13
    ++ "|
| **Accuracy** | 50% | 85%+ | +35-40 pts |
| **Calibration** | 0.25 | 0.10 | 60% better |
| **Confidence (Correct)** | Random | High (0.80+) | Reliable |
| **Confidence (Wrong)** | Random | Low (0.50) | Trustworthy |

**What This Means:**
- Model learns when it's right vs wrong
- Users can trust high-confidence predictions
- Critical for real-world forecasting applications

---

## Slide 5: Why DPO vs Traditional RLHF?

**Traditional RLHF:**
1. Train reward model (expensive)
2. Use reward model for PPO training (complex)
3. Requires huge compute

**DPO (Our Approach):**
1. Direct optimization from preferences (simple)
2. No separate reward model needed (efficient)
3. 2-3 hours on A10G GPU (~$2-3)

**Benefits:**
- ✓ 10x faster training
- ✓ More stable (no reward model drift)
- ✓ Better results with less data

---

## Slide 6: Dataset Quality

**Generated Training Data:**
- 40 DPO pairs from 5 real events
- 50% baseline accuracy (random guessing)
- Balanced YES/NO outcomes (40/60 split)

**Pairs Include:**
- Full scenario context (depth-3 paths)
- Cumulative probabilities
- Verified historical outcomes
- Metadata for analysis

**Next Steps:**
- Scale to 1000+ events
- Train production model
- Deploy to live forecasting system

---

## Key Takeaway

**DPO enables efficient reinforcement learning for forecasting:**
- Learn directly from historical accuracy
- Dramatically improve prediction quality
- Minimal compute cost (~$3 per training run)
- Production-ready in 2-3 hours

**This is how we'll deploy AI forecasting at scale.**
"

/-! ## The run orchestrator -/

/-- The errors `main` can propagate in our model: a missing/invalid input
file at `load_data`, or `ZeroDivisionError` inside
`create_performance_table`. -/
inductive RunError where
  | loadError
  | divisionByZero
deriving DecidableEq

/-- The four output files of the working directory; `none` = the file as
this run has not (yet) written it. -/
structure FS where
  comparison_file : Option Comparison
  diagram_file : Option String
  table_file : Option PerformanceTable
  slides_file : Option String
deriving DecidableEq

/-- `main()` from the source, as a state transformer on the output files:
load (`none` models a missing or malformed input file, which `json.load`
turns into a propagated exception), then write the comparison document, the
diagram, the performance table and the slides in that order, stopping at the
first error.  The returned `Option RunError` is the propagated error, the
returned `FS` the files on disk when the run ends. -/
def runMain (loaded : Option (Stats × List Sample)) (fs : FS) : Option RunError × FS :=
  match loaded with
  | none => (some RunError.loadError, fs)
  | some (stats, samples) =>
    let fs1 := { fs with comparison_file := some (create_comparison_examples samples) }
    let fs2 := { fs1 with diagram_file := some create_architecture_diagram }
    match create_performance_table stats with
    | none => (some RunError.divisionByZero, fs2)
    | some table =>
      let fs3 := { fs2 with table_file := some table }
      let fs4 := { fs3 with slides_file := some create_slide_content }
      (none, fs4)

/-! ## Helper lemmas -/

lemma numberedExamples_length (n : ℕ) (l : List Sample) :
    (numberedExamples n l).length = l.length := by
  induction l generalizing n with
  | nil => rfl
  | cons s rest ih => simp [numberedExamples, ih]

lemma numberedExamples_getElem? (l : List Sample) (n i : ℕ) :
    (numberedExamples n l)[i]? = (l[i]?).map (fun s => mkExample (n + i) s) := by
  induction l generalizing n i with
  | nil => simp [numberedExamples]
  | cons s rest ih =>
    cases i with
    | zero => simp [numberedExamples]
    | succ j =>
      have h : n + 1 + j = n + (j + 1) := by omega
      simp only [numberedExamples, List.getElem?_cons_succ, ih, h]

lemma numberedExamples_mem (l : List Sample) (n : ℕ) (e : ComparisonExample)
    (he : e ∈ numberedExamples n l) : ∃ k s, s ∈ l ∧ e = mkExample k s := by
  induction l generalizing n with
  | nil => simp [numberedExamples] at he
  | cons s rest ih =>
    rw [numberedExamples, List.mem_cons] at he
    rcases he with rfl | he
    · exact ⟨n, s, List.mem_cons_self s rest, rfl⟩
    · obtain ⟨k, s', hs', rfl⟩ := ih (n + 1) he
      exact ⟨k, s', List.mem_cons_of_mem _ hs', rfl⟩

lemma wrong_predictions_mem (samples : List Sample) (s : Sample)
    (h : s ∈ wrong_predictions samples) :
    s ∈ samples ∧ s.metadata.predictedOutcome ≠ s.metadata.actualOutcome := by
  rw [wrong_predictions, List.mem_filter] at h
  exact ⟨h.1, by simpa using h.2⟩

/-! ## Concrete values used by the witnesses -/

/-- A sample whose prediction disagrees with the actual outcome. -/
def sampleWrong : Sample :=
  { prompt := "Question: Will X happen?\n[Depth 1] A (p=0.5)\n[Depth 2] B (p=0.5)".data
    chosen := "YES".data
    rejected := "NO".data
    metadata :=
      { predictedOutcome := "NO".data
        actualOutcome := "YES".data
        cumulativeProbability := 1 / 8 } }

/-- A sample whose prediction agrees with the actual outcome. -/
def sampleRight : Sample :=
  { prompt := "Question: Will Y happen?\n[Depth 1] C (p=0.5)".data
    chosen := "NO".data
    rejected := "YES".data
    metadata :=
      { predictedOutcome := "NO".data
        actualOutcome := "NO".data
        cumulativeProbability := 1 / 2 } }

/-! ## C1, C9, C10: the comparison formatter -/

/-- C1: for every array of samples, the comparison document's examples list
has at most 3 entries, its length is the minimum of 3 and the number of
wrongly-predicted samples (so fewer than 3 such samples produce that smaller
number, and no error), its `i`-th entry is built (with 1-based numbering)
from the `i`-th sample whose `predictedOutcome` differs from its
`actualOutcome`, in original input order, and every entry comes from a
wrongly-predicted sample of the input. -/
theorem comparison_examples_spec (samples : List Sample) :
    (create_comparison_examples samples).examples.length ≤ 3 ∧
    (create_comparison_examples samples).examples.length
        = min 3 (wrong_predictions samples).length ∧
    (∀ i : ℕ, (create_comparison_examples samples).examples[i]?
        = if i < 3 then ((wrong_predictions samples)[i]?).map (fun s => mkExample (i + 1) s)
          else none) ∧
    ∀ e ∈ (create_comparison_examples samples).examples,
      ∃ s, s ∈ samples ∧ s.metadata.predictedOutcome ≠ s.metadata.actualOutcome ∧
        ∃ k, e = mkExample k s := by
  refine ⟨?_, ?_, ?_, ?_⟩
  · simp [create_comparison_examples, numberedExamples_length, List.length_take]
  · simp [create_comparison_examples, numberedExamples_length, List.length_take]
  · intro i
    show (numberedExamples 1 ((wrong_predictions samples).take 3))[i]? = _
    rw [numberedExamples_getElem?]
    by_cases h : i < 3
    · rw [List.getElem?_take_of_lt h, if_pos h]
      have : 1 + i = i + 1 := by omega
      rw [this]
    · rw [if_neg h]
      have hlen : ((wrong_predictions samples).take 3).length ≤ i := by
        simp only [List.length_take]
        omega
      simp [List.getElem?_eq_none hlen]
  · intro e he
    have he' : e ∈ numberedExamples 1 ((wrong_predictions samples).take 3) := he
    obtain ⟨k, s, hs, rfl⟩ := numberedExamples_mem _ _ _ he'
    have hs' := wrong_predictions_mem samples s (List.mem_of_mem_take hs)
    exact ⟨s, hs'.1, hs'.2, k, rfl⟩

/-- C9: the comparison document is a function of the wrongly-predicted
subsequence alone: two sample arrays with the same wrong-prediction
subsequence yield the same document. -/
theorem comparison_depends_only_on_wrong_predictions (s₁ s₂ : List Sample)
    (h : wrong_predictions s₁ = wrong_predictions s₂) :
    create_comparison_examples s₁ = create_comparison_examples s₂ := by
  simp [create_comparison_examples, h]

/-- Witness for C9: adding correctly-predicted samples around a wrong one
leaves the comparison document unchanged. -/
theorem comparison_depends_only_on_wrong_predictions_witness :
    wrong_predictions [sampleWrong]
        = wrong_predictions [sampleRight, sampleWrong, sampleRight] ∧
    create_comparison_examples [sampleWrong]
        = create_comparison_examples [sampleRight, sampleWrong, sampleRight] := by
  have h : wrong_predictions [sampleWrong]
      = wrong_predictions [sampleRight, sampleWrong, sampleRight] := rfl
  exact ⟨h, comparison_depends_only_on_wrong_predictions _ _ h⟩

/-- C10: when no sample is wrongly predicted (in particular on an empty
array) the comparison formatter still succeeds: the document has the fixed
title and subtitle and an empty examples list, and the run writes exactly
that document to the comparison file. -/
theorem comparison_examples_empty_when_all_right (samples : List Sample)
    (h : ∀ s ∈ samples, s.metadata.predictedOutcome = s.metadata.actualOutcome) :
    create_comparison_examples samples =
      { title := "DPO Training: Learning from Mistakes".data
        subtitle :=
          "Teaching the model to prefer correct predictions over incorrect ones".data
        examples := [] } ∧
    ∀ stats fs, ((runMain (some (stats, samples)) fs).2).comparison_file =
      some { title := "DPO Training: Learning from Mistakes".data
             subtitle :=
               "Teaching the model to prefer correct predictions over incorrect ones".data
             examples := [] } := by
  have hw : wrong_predictions samples = [] := by
    rw [wrong_predictions, List.filter_eq_nil_iff]
    intro s hs
    simp [h s hs]
  have hdoc : create_comparison_examples samples =
      { title := "DPO Training: Learning from Mistakes".data
        subtitle :=
          "Teaching the model to prefer correct predictions over incorrect ones".data
        examples := [] } := by
    simp [create_comparison_examples, hw, numberedExamples]
  refine ⟨hdoc, ?_⟩
  intro stats fs
  cases htab : create_performance_table stats <;>
    simp [runMain, htab, hdoc]

/-- Witness for C10: a one-element array whose sample is correctly
predicted yields the fixed document with no examples. -/
theorem comparison_examples_empty_when_all_right_witness :
    (∀ s ∈ [sampleRight],
        s.metadata.predictedOutcome = s.metadata.actualOutcome) ∧
    create_comparison_examples [sampleRight] =
      { title := "DPO Training: Learning from Mistakes".data
        subtitle :=
          "Teaching the model to prefer correct predictions over incorrect ones".data
        examples := [] } := by
  have h : ∀ s ∈ [sampleRight],
      s.metadata.predictedOutcome = s.metadata.actualOutcome := by decide
  exact ⟨h, (comparison_examples_empty_when_all_right [sampleRight] h).1⟩

/-! ## C3: question extraction -/

lemma extract_question_go_eq (ls : List Str) :
    extract_question_go ls =
      match ls.find? (fun l => questionTag.isPrefixOf l) with
      | some line => strip (removeAll questionTag line)
      | none => "Unknown question".data := by
  induction ls with
  | nil => rfl
  | cons l ls ih =>
    by_cases h : questionTag.isPrefixOf l
    · simp [extract_question_go, h, List.find?_cons_of_pos]
    · rw [extract_question_go, if_neg (by simpa using h), ih,
        List.find?_cons_of_neg _ (by simpa using h)]

/-- C3 (amended): question extraction returns the first line of the prompt
(split on newline) that begins with `"Question:"`, with every occurrence of
the substring `"Question:"` removed — not only the leading prefix, since the
source uses `line.replace('Question:', '')` — and surrounding whitespace
stripped; if no line begins with `"Question:"` it returns the fixed
placeholder `"Unknown question"`. -/
theorem extract_question_spec (prompt : Str) :
    extract_question prompt =
      match (splitLines prompt).find? (fun l => questionTag.isPrefixOf l) with
      | some line => strip (removeAll questionTag line)
      | none => "Unknown question".data := by
  rw [extract_question, extract_question_go_eq]

/-- Counterexample to C3 as stated: on the prompt
`"Question: A Question: B"` the code removes both occurrences of
`"Question:"` and returns `"A  B"`, not the leading-prefix-only removal
`"A Question: B"` that the claim describes. -/
theorem extract_question_counterexample :
    extract_question ("Question: A Question: B".data) = "A  B".data ∧
    extract_question ("Question: A Question: B".data) ≠ "A Question: B".data := by
  decide

/-! ## C4: scenario-path extraction -/

lemma extract_path_go_eq (ls : List Str) :
    extract_path_go ls = (ls.filter (fun l => depthTag.isPrefixOf l)).map strip := by
  induction ls with
  | nil => rfl
  | cons l ls ih =>
    by_cases h : depthTag.isPrefixOf l <;>
      simp [extract_path_go, h, ih]

lemma dropWhile_append_of_fixed {α : Type} (p : α → Bool) (xs ys : List α)
    (hy : ys.dropWhile p = ys) :
    (xs ++ ys).dropWhile p = xs.dropWhile p ++ ys := by
  induction xs with
  | nil => simpa using hy
  | cons a xs ih =>
    by_cases h : p a <;> simp [List.dropWhile_cons, h, ih]

lemma strip_keeps_depthTag (l : Str) (h : depthTag.isPrefixOf l) :
    depthTag.isPrefixOf (strip l) := by
  rw [List.isPrefixOf_iff_prefix] at h ⊢
  obtain ⟨t, rfl⟩ := h
  rw [strip]
  have h1 : (depthTag ++ t).dropWhile Char.isWhitespace = depthTag ++ t := by
    rw [show depthTag ++ t = '[' :: ("Depth".data ++ t) from rfl, List.dropWhile_cons,
      if_neg (by decide)]
  rw [h1, List.reverse_append,
    dropWhile_append_of_fixed _ _ _ (by rfl :
      (depthTag.reverse).dropWhile Char.isWhitespace = depthTag.reverse),
    List.reverse_append, List.reverse_reverse]
  exact List.prefix_append _ _

/-- C4: scenario-path extraction returns exactly the lines of the prompt
(split on newline) beginning with `"[Depth"`, in their original order, each
stripped of surrounding whitespace; and every returned entry still begins
with `"[Depth"` (the prefix is retained). -/
theorem extract_path_spec (prompt : Str) :
    extract_path prompt
        = ((splitLines prompt).filter (fun l => depthTag.isPrefixOf l)).map strip ∧
    ∀ s ∈ extract_path prompt, depthTag.isPrefixOf s := by
  refine ⟨extract_path_go_eq _, ?_⟩
  intro s hs
  rw [extract_path, extract_path_go_eq] at hs
  simp only [List.mem_map, List.mem_filter] at hs
  obtain ⟨l, ⟨_, hpre⟩, rfl⟩ := hs
  exact strip_keeps_depthTag l hpre

/-! ## C2: the rendered percentages -/

lemma abs_fmt1f_sub (q : ℚ) : |fmt1f q - q| ≤ 1 / 20 := by
  have h := abs_sub_round (q * 10)
  rw [abs_sub_comm, abs_le] at h
  have e : fmt1f q - q = ((round (q * 10) : ℤ) - q * 10) / 10 := by
    rw [fmt1f]; ring
  rw [e, abs_le]
  constructor <;> [linarith [h.1]; linarith [h.2]]

/-- C2: for statistics with `totalPaths > 0` the performance table is
produced, its rendered correct and incorrect percentages are
`correctPaths/totalPaths*100` and `incorrectPaths/totalPaths*100` rounded to
one decimal place (each within `1/20` of the exact value), and when
`correctPaths + incorrectPaths = totalPaths` their sum is within `1/10` of
`100`. -/
theorem performance_table_percentages (stats : Stats) (h : 0 < stats.totalPaths) :
    ∃ t, create_performance_table stats = some t ∧
      t.correctPct = fmt1f ((stats.correctPaths : ℚ) / (stats.totalPaths : ℚ) * 100) ∧
      t.incorrectPct = fmt1f ((stats.incorrectPaths : ℚ) / (stats.totalPaths : ℚ) * 100) ∧
      |t.correctPct - (stats.correctPaths : ℚ) / (stats.totalPaths : ℚ) * 100| ≤ 1 / 20 ∧
      |t.incorrectPct - (stats.incorrectPaths : ℚ) / (stats.totalPaths : ℚ) * 100| ≤ 1 / 20 ∧
      (stats.correctPaths + stats.incorrectPaths = stats.totalPaths →
        |t.correctPct + t.incorrectPct - 100| ≤ 1 / 10) := by
  have h0 : stats.totalPaths ≠ 0 := by omega
  rw [create_performance_table, if_neg h0]
  refine ⟨_, rfl, rfl, rfl, abs_fmt1f_sub _, abs_fmt1f_sub _, ?_⟩
  intro hsum
  have hQ : (stats.totalPaths : ℚ) ≠ 0 := Nat.cast_ne_zero.mpr h0
  have key : (stats.correctPaths : ℚ) / (stats.totalPaths : ℚ) * 100
      + (stats.incorrectPaths : ℚ) / (stats.totalPaths : ℚ) * 100 = 100 := by
    have hc : ((stats.correctPaths : ℚ) + (stats.incorrectPaths : ℚ))
        = (stats.totalPaths : ℚ) := by
      exact_mod_cast congrArg (Nat.cast : ℕ → ℚ) hsum
    field_simp
    linarith
  have h1 := abs_fmt1f_sub ((stats.correctPaths : ℚ) / (stats.totalPaths : ℚ) * 100)
  have h2 := abs_fmt1f_sub ((stats.incorrectPaths : ℚ) / (stats.totalPaths : ℚ) * 100)
  rw [abs_le] at h1 h2 ⊢
  constructor <;> [linarith [h1.1, h2.1]; linarith [h1.2, h2.2]]

/-- The statistics of the spec's end-to-end scenario. -/
def statsEx : Stats :=
  { totalDPOPairs := 40
    totalPaths := 40
    correctPaths := 20
    incorrectPaths := 20
    llmAccuracy := "50%".data
    byOutcomeYES := 16
    byOutcomeNO := 24 }

/-- Witness for C2: on the spec's example statistics (40 paths, 20 correct,
20 incorrect) the table exists and its rendered percentages sum to within
`1/10` of `100`. -/
theorem performance_table_percentages_witness :
    0 < statsEx.totalPaths ∧
    ∃ t, create_performance_table statsEx = some t ∧
      |t.correctPct + t.incorrectPct - 100| ≤ 1 / 10 := by
  refine ⟨by decide, ?_⟩
  obtain ⟨t, ht, _, _, _, _, hsum⟩ :=
    performance_table_percentages statsEx (by decide)
  exact ⟨t, ht, hsum (by decide)⟩

/-! ## C5, C6, C7, C8: the run orchestrator -/

/-- C6: when an input file is missing or malformed (the load step fails),
the run aborts with the propagated error and none of the four output files
has been written: the file system is exactly as before the run. -/
theorem run_aborts_on_load_error (fs : FS) :
    runMain none fs = (some RunError.loadError, fs) := rfl

/-- C5: with `totalPaths = 0` the run fails with the division error in the
performance-table step; the comparison document and the diagram written
earlier in the run are on disk, while the table and slides files keep
whatever content they had before the run. -/
theorem run_division_error_when_totalPaths_zero (stats : Stats)
    (samples : List Sample) (fs : FS) (h : stats.totalPaths = 0) :
    runMain (some (stats, samples)) fs =
      (some RunError.divisionByZero,
        { comparison_file := some (create_comparison_examples samples)
          diagram_file := some create_architecture_diagram
          table_file := fs.table_file
          slides_file := fs.slides_file }) := by
  obtain ⟨cf, df, tf, sf⟩ := fs
  simp [runMain, create_performance_table, h]

/-- All-zero statistics, as after an empty generation run. -/
def statsZero : Stats :=
  { totalDPOPairs := 0
    totalPaths := 0
    correctPaths := 0
    incorrectPaths := 0
    llmAccuracy := "0%".data
    byOutcomeYES := 0
    byOutcomeNO := 0 }

/-- A file system with stale table and slides files from an earlier run. -/
def fsStale : FS :=
  { comparison_file := none
    diagram_file := none
    table_file := some
      { totalDPOPairs := 1, totalPaths := 1, correctPaths := 1, correctPct := 100
        incorrectPaths := 0, incorrectPct := 0, llmAccuracy := "100%".data
        byOutcomeYES := 1, byOutcomeNO := 0 }
    slides_file := some "stale slides" }

/-- Witness for C5: a zero-path run on a stale file system writes the
comparison document and the diagram and leaves the stale table and slides
untouched. -/
theorem run_division_error_when_totalPaths_zero_witness :
    statsZero.totalPaths = 0 ∧
    runMain (some (statsZero, [sampleWrong])) fsStale =
      (some RunError.divisionByZero,
        { comparison_file := some (create_comparison_examples [sampleWrong])
          diagram_file := some create_architecture_diagram
          table_file := fsStale.table_file
          slides_file := fsStale.slides_file }) :=
  ⟨rfl, run_division_error_when_totalPaths_zero statsZero [sampleWrong] fsStale rfl⟩

/-- C7: the generator is deterministic: two successful runs on the same
loaded input produce the same four output files, whatever was on disk
before each run. -/
theorem run_deterministic (loaded : Option (Stats × List Sample))
    (fsA fsB fs₁ fs₂ : FS)
    (h : runMain loaded fsA = (none, fs₁))
    (h' : runMain loaded fsB = (none, fs₂)) :
    fs₁ = fs₂ := by
  obtain ⟨cA, dA, tA, sA⟩ := fsA
  obtain ⟨cB, dB, tB, sB⟩ := fsB
  cases loaded with
  | none => simp [runMain] at h
  | some p =>
    obtain ⟨stats, samples⟩ := p
    cases htab : create_performance_table stats with
    | none => rw [runMain] at h; simp [htab] at h
    | some table =>
      rw [runMain] at h h'
      simp only [htab, Prod.mk.injEq] at h h'
      rw [← h.2, ← h'.2]

/-- An empty file system: nothing written yet. -/
def fsEmpty : FS :=
  { comparison_file := none, diagram_file := none
    table_file := none, slides_file := none }

/-- The files a successful run on `statsEx` and `[sampleWrong]` leaves. -/
def fsOutEx : FS :=
  { comparison_file := some (create_comparison_examples [sampleWrong])
    diagram_file := some create_architecture_diagram
    table_file := create_performance_table statsEx
    slides_file := some create_slide_content }

/-- Witness for C7: the same input run over an empty and over a stale file
system leaves identical outputs. -/
theorem run_deterministic_witness :
    runMain (some (statsEx, [sampleWrong])) fsEmpty = (none, fsOutEx) ∧
    runMain (some (statsEx, [sampleWrong])) fsStale = (none, fsOutEx) ∧
    fsOutEx = fsOutEx := by
  have h : runMain (some (statsEx, [sampleWrong])) fsEmpty = (none, fsOutEx) := rfl
  have h' : runMain (some (statsEx, [sampleWrong])) fsStale = (none, fsOutEx) := rfl
  exact ⟨h, h', run_deterministic _ fsEmpty fsStale fsOutEx fsOutEx h h'⟩

lemma run_success_static_fields (stats : Stats) (samples : List Sample)
    (fs fs₁ : FS) (h : runMain (some (stats, samples)) fs = (none, fs₁)) :
    fs₁.diagram_file = some create_architecture_diagram ∧
    fs₁.slides_file = some create_slide_content := by
  cases htab : create_performance_table stats with
  | none => rw [runMain] at h; simp [htab] at h
  | some table =>
    rw [runMain] at h
    simp only [htab, Prod.mk.injEq] at h
    rw [← h.2]
    exact ⟨rfl, rfl⟩

/-- C8: the architecture diagram and the slide deck written by a successful
run are the fixed constant texts `create_architecture_diagram` and
`create_slide_content`, whatever the two input files contain; two runs on
any two inputs write identical diagram and slides files. -/
theorem static_outputs_constant (stats stats' : Stats)
    (samples samples' : List Sample) (fsA fsB fs₁ fs₂ : FS)
    (h : runMain (some (stats, samples)) fsA = (none, fs₁))
    (h' : runMain (some (stats', samples')) fsB = (none, fs₂)) :
    fs₁.diagram_file = some create_architecture_diagram ∧
    fs₁.slides_file = some create_slide_content ∧
    fs₁.diagram_file = fs₂.diagram_file ∧
    fs₁.slides_file = fs₂.slides_file := by
  obtain ⟨hd, hs⟩ := run_success_static_fields _ _ _ _ h
  obtain ⟨hd', hs'⟩ := run_success_static_fields _ _ _ _ h'
  exact ⟨hd, hs, by rw [hd, hd'], by rw [hs, hs']⟩

/-- Statistics different from `statsEx` in every dynamic field. -/
def statsEx2 : Stats :=
  { totalDPOPairs := 10
    totalPaths := 8
    correctPaths := 6
    incorrectPaths := 2
    llmAccuracy := "75%".data
    byOutcomeYES := 3
    byOutcomeNO := 5 }

/-- The files a successful run on `statsEx2` and no samples leaves. -/
def fsOutEx2 : FS :=
  { comparison_file := some (create_comparison_examples [])
    diagram_file := some create_architecture_diagram
    table_file := create_performance_table statsEx2
    slides_file := some create_slide_content }

/-- Witness for C8: two runs on different statistics and samples write the
same constant diagram and slides. -/
theorem static_outputs_constant_witness :
    runMain (some (statsEx, [sampleWrong])) fsEmpty = (none, fsOutEx) ∧
    runMain (some (statsEx2, [])) fsStale = (none, fsOutEx2) ∧
    (fsOutEx.diagram_file = some create_architecture_diagram ∧
      fsOutEx.slides_file = some create_slide_content ∧
      fsOutEx.diagram_file = fsOutEx2.diagram_file ∧
      fsOutEx.slides_file = fsOutEx2.slides_file) := by
  have h : runMain (some (statsEx, [sampleWrong])) fsEmpty = (none, fsOutEx) := rfl
  have h' : runMain (some (statsEx2, [])) fsStale = (none, fsOutEx2) := rfl
  exact ⟨h, h', static_outputs_constant _ _ _ _ _ _ _ _ h h'⟩
